import Mathlib

set_option linter.unusedVariables false

/-!
Shallow embedding of the guideline catalog module of the arm5nextjs
repository: src/src/data/guidelineActions.mjs (both the in-memory version and
the SQL backed version concatenated in that file), together with the
comparison helpers of src/src/data/guidelines.mjs and of the comparison
utility module.

Modelling conventions. The nullable guideline level (number | null) becomes
Option Int with none standing for the JS null; a possibly missing object
field becomes an outer Option with none standing for the JS undefined; an
object reference that may be null or undefined becomes JSObj; the comparison
result type (-1 | 0 | 1 | undefined) becomes Option Int with none standing
for the JS undefined.
-/

/-- A JavaScript object reference: null, undefined, or an actual value. -/
inductive JSObj (α : Type) where
  | jsnull
  | jsundef
  | val (a : α)
deriving DecidableEq

/-- Map a function over the value of a JSObj, keeping null and undefined. -/
def JSObj.map {α β : Type} (f : α → β) : JSObj α → JSObj β
  | JSObj.jsnull => JSObj.jsnull
  | JSObj.jsundef => JSObj.jsundef
  | JSObj.val a => JSObj.val (f a)

/-- True exactly when the reference is null or undefined (the JS test
x == null with loose equality). -/
def JSObj.isNullish {α : Type} : JSObj α → Bool
  | JSObj.val _ => false
  | _ => true

/-- JS member access collection[i] for a possibly NaN index (NaN modelled by
none): NaN, negative and out of range accesses all yield undefined. -/
def jsIndex {α : Type} (l : List α) : Option Int → JSObj α
  | none => JSObj.jsundef
  | some i =>
    if i < 0 then JSObj.jsundef
    else
      match l.get? i.toNat with
      | some x => JSObj.val x
      | none => JSObj.jsundef

/-- GuidelineModel from src/src/data/guidelines.mjs, constructor order
(name, technique, form, level, description): the level null is modelled as
none and a missing description as none. -/
structure GuidelineModel where
  name : String
  technique : String
  form : String
  level : Option Int
  description : Option String
deriving DecidableEq

/-- A partial guideline key: each field may be missing (JS undefined, the
outer none). The level field additionally distinguishes the JS null sentinel
(the inner none). -/
structure GuidelineKey where
  form : Option String
  technique : Option String
  level : Option (Option Int)
  name : Option String
deriving DecidableEq

/-- Reading the four key fields off a guideline model: every field is
present, so every outer Option is some. -/
def GuidelineModel.toKey (g : GuidelineModel) : GuidelineKey :=
  { form := some g.form, technique := some g.technique,
    level := some g.level, name := some g.name }

/-- The numeric coercion the JS relational operator applies to a level
operand: null coerces to 0. -/
def levelNum : Option Int → Int
  | none => 0
  | some n => n

/-- compareLevel from src/src/data/guidelineActions.mjs (first version, lines
15 to 17), translated clause by clause:
(compared === comparee || compared < comparee) gives 0, otherwise
compared === null gives -1, otherwise
(comparee === null || comparee < compared) gives 1, otherwise undefined.
Strict equality on number | null is equality of Option Int; the relational
operator compares after coercing null to 0. -/
def compareLevel (compared comparee : Option Int) : Option Int :=
  if compared = comparee ∨ levelNum compared < levelNum comparee then some 0
  else if compared = none then some (-1)
  else if comparee = none ∨ levelNum comparee < levelNum compared then some 1
  else none

/-- The JS relational operator on two strings: lexicographic comparison of
the code unit sequences, a shorter string being less than any extension of
it (the strings appearing in this module are ASCII, where code units and
code points agree). -/
def jsStrLtL : List Char → List Char → Bool
  | _, [] => false
  | [], _ :: _ => true
  | a :: as, b :: bs =>
    if Nat.blt a.toNat b.toNat then true
    else if Nat.blt b.toNat a.toNat then false
    else jsStrLtL as bs

/-- The JS relational operator on strings, on the String type. -/
def jsStrLt (a b : String) : Bool := jsStrLtL a.data b.data

/-- compareName from src/src/data/guidelineActions.mjs (first version, lines
24 to 26). -/
def compareName (compared comparee : String) : Option Int :=
  if compared = comparee then some 0
  else if jsStrLt compared comparee then some (-1)
  else if jsStrLt comparee compared then some 1
  else none

/-- artComparison from src/src/data/guidelines.mjs (lines 296 to 298). -/
def artComparison (compared comparee : String) : Option Int :=
  if jsStrLt compared comparee then some (-1)
  else if jsStrLt comparee compared then some 1
  else if compared = comparee then some 0
  else none

/-- compareIgnoreUndefined from the comparison utility module: an undefined
operand (the outer none) makes the wrapped comparison return 0. -/
def compareIgnoreUndefined {α : Type} (compare : α → α → Option Int) :
    Option α → Option α → Option Int
  | none, _ => some 0
  | _, none => some 0
  | some a, some b => compare a b

/-- compareGuideline from src/src/data/guidelineActions.mjs (first version,
lines 39 to 54): nullish operands give undefined; otherwise the chain
compares form, technique, level and name, continuing only while the running
result is exactly 0. -/
def compareGuideline (compared comparee : JSObj GuidelineModel) : Option Int :=
  match compared, comparee with
  | JSObj.val a, JSObj.val b =>
    let r1 := artComparison a.form b.form
    let r2 := if r1 = some 0 then artComparison a.technique b.technique else r1
    let r3 := if r2 = some 0 then compareLevel a.level b.level else r2
    if r3 = some 0 then compareName a.name b.name else r3
  | _, _ => none

/-- compareGuidelineKeys from src/src/data/guidelineActions.mjs (first
version, lines 62 to 77): as compareGuideline but with every field comparison
wrapped in compareIgnoreUndefined, so a missing field compares as 0. -/
def compareGuidelineKeys (compared comparee : JSObj GuidelineKey) : Option Int :=
  match compared, comparee with
  | JSObj.val a, JSObj.val b =>
    let r1 := compareIgnoreUndefined artComparison a.form b.form
    let r2 := if r1 = some 0 then compareIgnoreUndefined artComparison a.technique b.technique else r1
    let r3 := if r2 = some 0 then compareIgnoreUndefined compareLevel a.level b.level else r2
    if r3 = some 0 then compareIgnoreUndefined compareName a.name b.name else r3
  | _, _ => none

/-- The comparator that addGuideline, updateGuideline and removeGuideline
pass to binarySearch: compareGuidelineKeys applied to the seeked key and to
the key fields read off a catalog element. Reading the four fields of a
guideline model yields exactly its key projection, and reading them off an
undefined element keeps the element nullish, which compareGuidelineKeys then
reports as undefined. -/
def keyComparator (seeked : JSObj GuidelineKey) (element : JSObj GuidelineModel) : Option Int :=
  compareGuidelineKeys seeked (JSObj.map GuidelineModel.toKey element)

/-- The observable outcomes of a binarySearch call: a returned index (none
standing for the JS NaN), a thrown TypeError, a thrown RangeError, or
nontermination of the while loop. -/
inductive BSResult where
  | ok (index : Option Int)
  | typeError
  | rangeError
  | diverge
deriving DecidableEq

/-- binarySearch from src/src/data/guidelineActions.mjs (first version, lines
110 to 137). The source computes the probe index i exactly once, before the
loop, as Math.floor((start + end) / 2) from the raw end argument, so a call
with end undefined makes i NaN (modelled by none). The end bound check
compares e against the misspelled property collection.lenght, which is
undefined, so that comparison is always false and only e < 0 can raise the
second RangeError. Inside the loop, s and e change only when the comparison
result is nonzero, and any nonzero result immediately falsifies the loop
condition; so the loop body effectively runs once: a comparison result of 0
with a nonempty window repeats the identical iteration forever (diverge); a
result below 0 sets e to i and returns -1 - s with s still equal to start; a
result above 0 sets s to i + 1 and returns -1 - s, which is NaN exactly when
i is NaN. With an empty window the loop never runs and the initial cmp of 0
makes the function return i itself. -/
def binarySearch {α β : Type} (collection : List α) (seeked : JSObj β)
    (start : Int) (endOpt : Option Int)
    (comparator : JSObj β → JSObj α → Option Int) : BSResult :=
  if start < 0 ∨ (collection.length : Int) < start then BSResult.rangeError
  else
    let e : Int := endOpt.getD (collection.length : Int)
    if e < 0 then BSResult.rangeError
    else
      let i : Option Int := Option.map (fun en => Int.fdiv (start + en) 2) endOpt
      if start < e then
        match comparator seeked (jsIndex collection i) with
        | none => BSResult.typeError
        | some c =>
          if c = 0 then BSResult.diverge
          else if c < 0 then BSResult.ok (some (-1 - start))
          else BSResult.ok (Option.map (fun iv => -2 - iv) i)
      else BSResult.ok i

/-- JS Array.prototype.splice(startArg, 0, x): a negative start counts from
the end, clamped at 0; a start beyond the length is clamped at the length. -/
def jsSpliceInsert {α : Type} (l : List α) (startArg : Int) (x : α) : List α :=
  let n : Nat := if startArg < 0 then ((l.length : Int) + startArg).toNat else min startArg.toNat l.length
  l.take n ++ [x] ++ l.drop n

/-- JS Array.prototype.splice(n, 1, x) for a nonnegative index n, paired with
the first removed element (undefined, modelled none, when n is the length). -/
def jsSpliceReplace {α : Type} (l : List α) (n : Nat) (x : α) : List α × Option α :=
  (l.take n ++ [x] ++ l.drop (n + 1), l.get? n)

/-- The first entry of the module level guidelines array of the first version
(constructor arguments in source order: name, technique, form, level,
description). -/
def g0 : GuidelineModel :=
  { name := "Create an animal", technique := "Creo", form := "Animal",
    level := some 20, description := some "Create a mundane animal" }

/-- The second entry of the module level guidelines array of the first
version. -/
def g1 : GuidelineModel :=
  { name := "Destroy a specific kind of magical effect.", technique := "Perdo",
    form := "Vim", level := none,
    description := some "Destroy a specific kind (such a Hermetic spell of specific Form) of level (level + 2 magnitudes)/2" }

/-- The initial value of the module level guidelines array. -/
def initialGuidelines : List GuidelineModel := [g0, g1]

/-- The observable outcomes of addGuideline: a resolved insertion carrying
the new backing array and the returned key, a rejection with the duplicate
RangeError, a rejection with an error propagated from binarySearch, or
nontermination inherited from binarySearch. -/
inductive AddResult where
  | added (guidelines : List GuidelineModel) (key : GuidelineKey)
  | alreadyExists
  | searchError
  | diverge
deriving DecidableEq

/-- addGuideline from src/src/data/guidelineActions.mjs (first version, lines
156 to 174): binarySearch over the whole array with compareGuidelineKeys; a
nonnegative index rejects with the duplicate RangeError; otherwise the
guideline is spliced in at -1 - index and the key object is resolved. A NaN
index fails the test index >= 0 and splice coerces a NaN start to 0. Errors
thrown by binarySearch are caught and turned into a rejection. -/
def addGuideline (guidelines : List GuidelineModel) (guideline : GuidelineModel) : AddResult :=
  match binarySearch guidelines (JSObj.val guideline.toKey) 0 (some (guidelines.length : Int)) keyComparator with
  | BSResult.ok (some index) =>
    if 0 ≤ index then AddResult.alreadyExists
    else AddResult.added (jsSpliceInsert guidelines (-1 - index) guideline) guideline.toKey
  | BSResult.ok none => AddResult.added (jsSpliceInsert guidelines 0 guideline) guideline.toKey
  | BSResult.diverge => AddResult.diverge
  | _ => AddResult.searchError

/-- The observable outcomes of updateGuideline: a resolved replacement
carrying the new backing array and the spliced out previous element, a
rejection with NotFoundException, a rejection with an error thrown by
binarySearch, or nontermination inherited from binarySearch. -/
inductive UpdateResult where
  | replaced (guidelines : List GuidelineModel) (previous : Option GuidelineModel)
  | notFound
  | searchError
  | diverge
deriving DecidableEq

/-- updateGuideline from src/src/data/guidelineActions.mjs (first version,
lines 183 to 192). The source searches for the new guideline value, not for
the guidelineKey argument, and passes end = undefined, which makes the probe
index NaN. A nonnegative index resolves with the element spliced out by
splice(index, 1, guideline); a negative or NaN index rejects with
NotFoundException; an error thrown by binarySearch inside the promise
executor rejects the promise with that error. -/
def updateGuideline (guidelines : List GuidelineModel) (guidelineKey : GuidelineKey) (guideline : GuidelineModel) : UpdateResult :=
  match binarySearch guidelines (JSObj.val guideline.toKey) 0 none keyComparator with
  | BSResult.ok (some index) =>
    if 0 ≤ index then
      UpdateResult.replaced (jsSpliceReplace guidelines index.toNat guideline).1
        (jsSpliceReplace guidelines index.toNat guideline).2
    else UpdateResult.notFound
  | BSResult.ok none => UpdateResult.notFound
  | BSResult.diverge => UpdateResult.diverge
  | _ => UpdateResult.searchError

/-- One adjacent pair is in ascending position when the full key comparator
orders it with a result at most 0. -/
def ascPair (a b : GuidelineModel) : Bool :=
  match compareGuideline (JSObj.val a) (JSObj.val b) with
  | some r => decide (r ≤ 0)
  | none => false

/-- The backing sequence is sorted ascending by the key comparator
(compareGuideline) when every adjacent pair is. -/
def sortedAsc : List GuidelineModel → Bool
  | [] => true
  | [_] => true
  | a :: b :: rest => ascPair a b && sortedAsc (b :: rest)

/-- A guideline whose form Herbam lies strictly between the forms Animal and
Vim of the initial catalog. -/
def gHerbam : GuidelineModel :=
  { name := "Grow a plant", technique := "Creo", form := "Herbam",
    level := some 5, description := none }

/-- The key of gHerbam, absent from the initial catalog. -/
def kHerbam : GuidelineKey := GuidelineModel.toKey gHerbam

/-- A guideline whose key fields all agree with g0 and whose description
differs. -/
def g0dup : GuidelineModel :=
  { name := "Create an animal", technique := "Creo", form := "Animal",
    level := some 20, description := some "A second copy with the same key" }

/-- A replacement for g0 with the identical key and a new description. -/
def g0upd : GuidelineModel :=
  { name := "Create an animal", technique := "Creo", form := "Animal",
    level := some 20, description := some "An updated description" }

/-- A literal SQL filter value: the JS null, a string, or a number. -/
inductive SqlValue where
  | vnull
  | vstr (s : String)
  | vnum (n : Int)
deriving DecidableEq

/-- A thrown JS ReferenceError, carrying the unresolved identifier. -/
inductive JsRefError where
  | referenceError (ident : String)
deriving DecidableEq

/-- The query builder accumulator of getGuidelines (second version of the
module): where clauses, bound query values, the unique placeholder count, the
field to placeholder index map and the order clauses. The source initial
accumulator omits fieldPlaceholders and orderClauses; both are modelled as
initially empty lists. -/
structure QueryBuilder where
  whereClauses : List String
  queryValues : List SqlValue
  placeholderCount : Int
  fieldPlaceholders : List (String × Int)
  orderClauses : List String
deriving DecidableEq

/-- validFieldName from src/src/data/guidelineActions.mjs (second version,
lines 318 to 320): the body tests the regular expression against the
identifier field, which is bound nowhere (the parameter is named fieldName),
so evaluating the argument throws a ReferenceError before the test runs.
Even with that identifier fixed, the regular expression demands a literal dot
after the first name segment, so a plain column name would not match. -/
def validFieldName (fieldName : String) : Except JsRefError Bool :=
  Except.error (JsRefError.referenceError "field")

/-- The call getOwnPropertyNames(sqlFilter ?? ...) opening the filter reduce
(second version, line 331) names getOwnPropertyNames without the Object
qualifier that is used three lines further down, so the call throws a
ReferenceError for every argument, before any property name is visited. -/
def jsGetOwnPropertyNames (o : List (String × SqlValue)) : Except JsRefError (List String) :=
  Except.error (JsRefError.referenceError "getOwnPropertyNames")

/-- The unbound identifier field, read again inside the IS NULL clause
template and inside the console.log call of the reduce body. -/
def jsFieldIdent : Except JsRefError String :=
  Except.error (JsRefError.referenceError "field")

/-- One iteration of the filter reduce of getGuidelines (second version,
lines 332 to 354), as the source would execute it: validFieldName is
evaluated first (and throws); the null branch interpolates the unbound
identifier field into the IS NULL clause; the fresh field branch interpolates
result[2], a property the accumulator does not have, so the clause text
renders the word undefined in place of the assigned placeholder index, while
the bound value and the field to placeholder map entry are still appended;
the known field branch reuses the stored placeholder index; the invalid field
branch logs with the unbound identifier field. -/
def whereReduceStep (sqlFilter : List (String × SqlValue)) (result : QueryBuilder) (fieldName : String) :
    Except JsRefError QueryBuilder := do
  let valid ← validFieldName fieldName
  if valid then
    if (sqlFilter.lookup fieldName) = some SqlValue.vnull then do
      let f ← jsFieldIdent
      pure { result with whereClauses := result.whereClauses ++ [f ++ " IS NULL"] }
    else
      match result.fieldPlaceholders.lookup fieldName with
      | some idx =>
        pure { result with whereClauses := result.whereClauses ++ [fieldName ++ " = $" ++ toString idx] }
      | none =>
        pure { result with
          placeholderCount := result.placeholderCount + 1,
          whereClauses := result.whereClauses ++ [fieldName ++ " = $undefined"],
          queryValues := result.queryValues ++ [(sqlFilter.lookup fieldName).getD SqlValue.vnull],
          fieldPlaceholders := result.fieldPlaceholders ++ [(fieldName, result.placeholderCount + 1)] }
  else do
    let f ← jsFieldIdent
    pure result

/-- The filter phase of getGuidelines (second version, lines 330 to 362): a
reduce over the property names of sqlFilter starting from the empty
accumulator. The opening call that should list the property names throws a
ReferenceError, so the fold is never reached. -/
def buildWhereClauses (sqlFilter : List (String × SqlValue)) : Except JsRefError QueryBuilder := do
  let names ← jsGetOwnPropertyNames sqlFilter
  names.foldlM (whereReduceStep sqlFilter)
    { whereClauses := [], queryValues := [], placeholderCount := 0,
      fieldPlaceholders := [], orderClauses := [] }

/-- The order phase of getGuidelines (second version, lines 363 to 380): the
reduce reads the identifier order, which is not among the parameters of
getGuidelines, so evaluating it throws a ReferenceError. -/
def buildOrderClauses (qb : QueryBuilder) : Except JsRefError QueryBuilder :=
  Except.error (JsRefError.referenceError "order")

/-- The whole predicate and order compilation performed inside the promise
executor of getGuidelines (second version, lines 328 to 409) before the SQL
text is assembled. -/
def compileQuery (sqlFilter : List (String × SqlValue)) : Except JsRefError QueryBuilder := do
  let qb ← buildWhereClauses sqlFilter
  buildOrderClauses qb

/-- C1: the claim fails on the code. The initial catalog is sorted ascending
by the key comparator and the insert of gHerbam (a pairwise distinct key)
succeeds, yet the resulting backing sequence puts gHerbam in front of g0 and
is no longer sorted: the probe index of binarySearch is computed once outside
the loop, so the element at index 0 is never examined and the splice position
degenerates to 0. -/
theorem addGuideline_breaks_sort :
    sortedAsc initialGuidelines = true ∧
    addGuideline initialGuidelines gHerbam = AddResult.added [gHerbam, g0, g1] (GuidelineModel.toKey gHerbam) ∧
    sortedAsc [gHerbam, g0, g1] = false := by
  decide

/-- C2: the claim fails on the code. The concrete levels 2 and 5 compare as 0
(equal) instead of less, and the null sentinel against the concrete level 5
also compares as 0 instead of less: the first branch of compareLevel already
returns 0 whenever compared < comparee, with null coerced to 0 by the JS
relational operator. -/
theorem compareLevel_not_ascending :
    compareLevel (some 2) (some 5) = some 0 ∧ compareLevel none (some 5) = some 0 :=
  ⟨rfl, rfl⟩

/-- C3: the claim fails on the code. The key of g0 is present (it compares
equal to the key of the entry at index 0 of the sorted initial catalog), yet
binarySearch returns the negative index -1; and searching the key of g1,
present at index 1, hits the probe index with comparison result 0 and repeats
the identical loop iteration forever. -/
theorem binarySearch_misses_present_key :
    compareGuidelineKeys (JSObj.val (GuidelineModel.toKey g0)) (JSObj.val (GuidelineModel.toKey g0)) = some 0 ∧
    binarySearch initialGuidelines (JSObj.val (GuidelineModel.toKey g0)) 0 (some 2) keyComparator = BSResult.ok (some (-1)) ∧
    binarySearch initialGuidelines (JSObj.val (GuidelineModel.toKey g1)) 0 (some 2) keyComparator = BSResult.diverge := by
  decide

/-- C4: the claim fails on the code. The key kHerbam is absent from the
sorted initial catalog and its unique order preserving insertion index is 1
(it compares greater than the key of g0 and less than the key of g1), so the
claimed return value is -2; binarySearch returns -1 instead. -/
theorem binarySearch_wrong_insertion_point :
    keyComparator (JSObj.val kHerbam) (JSObj.val g0) = some 1 ∧
    keyComparator (JSObj.val kHerbam) (JSObj.val g1) = some (-1) ∧
    binarySearch initialGuidelines (JSObj.val kHerbam) 0 (some 2) keyComparator = BSResult.ok (some (-1)) := by
  decide

/-- C5: the claim fails on the code. The key of g0dup compares equal to the
key of g0, an entry of the initial catalog, yet addGuideline resolves
successfully and splices the duplicate in at index 0, changing the backing
sequence, instead of rejecting with the duplicate RangeError and leaving the
catalog unchanged. -/
theorem addGuideline_accepts_duplicate :
    compareGuidelineKeys (JSObj.val (GuidelineModel.toKey g0dup)) (JSObj.val (GuidelineModel.toKey g0)) = some 0 ∧
    addGuideline initialGuidelines g0dup = AddResult.added [g0dup, g0, g1] (GuidelineModel.toKey g0dup) := by
  decide

/-- C6: the claim fails on the code. Updating the entry whose key is present
(the key of g0) rejects with the TypeError propagated from binarySearch
instead of replacing the entry and returning the previous one, and updating
with an absent key (kHerbam) rejects with the same TypeError instead of the
not found error: the call passes end = undefined, so the probe index is NaN,
the probed element is undefined and the comparator reports undefined; the
search argument is moreover the new guideline value, not the guidelineKey
parameter. -/
theorem updateGuideline_always_type_error :
    updateGuideline initialGuidelines (GuidelineModel.toKey g0) g0upd = UpdateResult.searchError ∧
    updateGuideline initialGuidelines kHerbam gHerbam = UpdateResult.searchError :=
  ⟨rfl, rfl⟩

/-- C7: the claim fails on the code. Compiling the filter with form Animal
(the field the spec calls category1) and level null rejects with a
ReferenceError at the unqualified getOwnPropertyNames call, producing no
clauses and no bound parameters at all. -/
theorem compileQuery_animal_null_raises :
    compileQuery [("form", SqlValue.vstr "Animal"), ("level", SqlValue.vnull)] =
      Except.error (JsRefError.referenceError "getOwnPropertyNames") :=
  rfl

/-- C8: the claim fails on the code. No compiled query ever carries
placeholder indices: compiling this three field filter rejects with the
ReferenceError at the unqualified getOwnPropertyNames call, and even a single
reduce step on its own raises the ReferenceError of the unbound identifier
field inside validFieldName, never reaching the placeholder bookkeeping
(whose fresh field branch would anyway render the absent property result[2]
as the word undefined in the clause text). -/
theorem compileQuery_no_placeholders :
    compileQuery [("form", SqlValue.vstr "Animal"), ("technique", SqlValue.vstr "Creo"), ("level", SqlValue.vnum 5)] =
      Except.error (JsRefError.referenceError "getOwnPropertyNames") ∧
    whereReduceStep [("form", SqlValue.vstr "Animal")]
      { whereClauses := [], queryValues := [], placeholderCount := 0,
        fieldPlaceholders := [], orderClauses := [] } "form" =
      Except.error (JsRefError.referenceError "field") :=
  ⟨rfl, rfl⟩

/-- C9: the claim fails on the code. A field name outside the allow list is
not silently dropped: the validity test itself throws a ReferenceError on the
unbound identifier field, and the whole compilation rejects with the
ReferenceError of the unqualified getOwnPropertyNames call before any field
is examined, so no input compiles without raising. -/
theorem unknown_field_not_silently_dropped :
    validFieldName "no_such_column" = Except.error (JsRefError.referenceError "field") ∧
    compileQuery [("no_such_column", SqlValue.vstr "x")] =
      Except.error (JsRefError.referenceError "getOwnPropertyNames") :=
  ⟨rfl, rfl⟩

/-- C10: confirmed. For every pair of operands where either one is null or
undefined, both compareGuideline and compareGuidelineKeys return the
incomparable outcome (undefined, modelled none): never an order and never
equality. -/
theorem nullish_operands_incomparable :
    (∀ a b : JSObj GuidelineModel, (JSObj.isNullish a = true ∨ JSObj.isNullish b = true) → compareGuideline a b = none) ∧
    (∀ a b : JSObj GuidelineKey, (JSObj.isNullish a = true ∨ JSObj.isNullish b = true) → compareGuidelineKeys a b = none) := by
  constructor <;>
    (intro a b h; cases a <;> cases b <;> first | rfl | simp [JSObj.isNullish] at h)

/-- C10 witness: the theorem applied at a null first operand against g0 and
at an undefined first operand against the key of g0. -/
theorem nullish_operands_incomparable_witness :
    compareGuideline JSObj.jsnull (JSObj.val g0) = none ∧
    compareGuidelineKeys JSObj.jsundef (JSObj.val (GuidelineModel.toKey g0)) = none :=
  ⟨nullish_operands_incomparable.1 _ _ (Or.inl rfl),
   nullish_operands_incomparable.2 _ _ (Or.inl rfl)⟩
